import Mathlib

/-!
Verification development for the WikipediaML pipeline
(`src/WikipediaML.py`).

The pipeline ingests MediaWiki XML dumps and produces cleaned
(title, text) records.  Its core pieces, embedded below:

* a wikitext node tree and the cleaning passes of
  `_parse_and_clean_wikicode` (removal of file/image/media wikilinks,
  reference-list templates, and ref/table tags, followed by flattening);
* the per-page extraction filter of `_extract_content`
  (namespace filter, redirect filter, counters);
* the per-page cleaning stage of `_clean_content`
  (parser-error handling, empty-text handling, counters);
* the shard-count computation of `_split_generators`.

The wikitext tree itself is produced by the external library
`mwparserfromhell`; following the specification, the tree shape and the
semantics of its operations (parse, recursive filter, remove,
strip_code) are modelled from the spec, while every removal predicate
and the control flow of the pipeline are translated from the source.
-/

/-- Modelled from the spec: the `WikiNode` parse-tree variants of the
wikitext object model (spec section 3).  `wikilink` carries a target and
an optional display string; `template` carries a name and arguments,
each an optional key with a node-sequence value; `tag` and `heading`
carry child nodes. -/
inductive WikiNode where
  | text (s : String)
  | wikilink (target : String) (display : Option String)
  | template (nm : String) (args : List (Option String × List WikiNode))
  | tag (nm : String) (children : List WikiNode)
  | heading (level : Nat) (children : List WikiNode)
deriving Repr

/-- A section, as produced by `get_sections(flat=True, include_lead=True,
include_headings=True)`: a flat node sequence whose heading node, when
present, is part of the sequence. -/
abbrev WikiSection : Type := List WikiNode

mutual

/-- Structural equality on nodes (stands in for the object identity used
by the library when locating a node to remove). -/
def beqNode : WikiNode → WikiNode → Bool
  | .text s, .text s2 => s == s2
  | .wikilink t d, .wikilink t2 d2 => t == t2 && d == d2
  | .template nm args, .template nm2 args2 => nm == nm2 && beqArgs args args2
  | .tag nm cs, .tag nm2 cs2 => nm == nm2 && beqList cs cs2
  | .heading l cs, .heading l2 cs2 => l == l2 && beqList cs cs2
  | _, _ => false

def beqArgs : List (Option String × List WikiNode) → List (Option String × List WikiNode) → Bool
  | [], [] => true
  | (k, v) :: r, (k2, v2) :: r2 => k == k2 && beqList v v2 && beqArgs r r2
  | _, _ => false

def beqList : List WikiNode → List WikiNode → Bool
  | [], [] => true
  | n :: r, n2 :: r2 => beqNode n n2 && beqList r r2
  | _, _ => false

end

/-- Lower-casing as performed by the Python `str.lower` method on the
character ranges the pipeline compares (character-list based so that
concrete instances evaluate). -/
def pyLower (s : String) : String :=
  String.mk (s.toList.map Char.toLower)

/-- The Python `str.startswith` test. -/
def pyStartsWith (s p : String) : Bool :=
  p.toList.isPrefixOf s.toList

/-- The Python `str.strip` method with no argument: remove leading and
trailing whitespace. -/
def pyStrip (s : String) : String :=
  String.mk (((s.toList.dropWhile Char.isWhitespace).reverse.dropWhile
    Char.isWhitespace).reverse)

/-- Translated from `rm_wikilink` in `_parse_and_clean_wikicode`:
the regular expression match of the target (called `title` by the
library) against the case-insensitive prefixes File:, Image:, Media:. -/
def rm_wikilink : WikiNode → Bool
  | .wikilink target _ =>
      pyStartsWith (pyLower target) "file:" ||
        (pyStartsWith (pyLower target) "image:" || pyStartsWith (pyLower target) "media:")
  | _ => false

/-- Translated from `rm_template` in `_parse_and_clean_wikicode`:
the lower-cased template name is looked up in the fixed removal set. -/
def rm_template : WikiNode → Bool
  | .template nm _ =>
      pyLower nm == "reflist" ||
        (pyLower nm == "notelist" ||
          (pyLower nm == "notelist-ua" ||
            (pyLower nm == "notelist-lr" ||
              (pyLower nm == "notelist-ur" || pyLower nm == "notelist-lg"))))
  | _ => false

/-- Translated from `rm_tag` in `_parse_and_clean_wikicode`:
the tag name is ref or table. -/
def rm_tag : WikiNode → Bool
  | .tag nm _ => nm == "ref" || nm == "table"
  | _ => false

mutual

/-- Recursive removal pass: keep a node unless the predicate matches it,
recursing into the children (tag and heading children and template
argument values) of every kept node.  A matched node is dropped with its
whole subtree. -/
def removeRecNode (p : WikiNode → Bool) : WikiNode → WikiNode
  | .text s => .text s
  | .wikilink t d => .wikilink t d
  | .template nm args => .template nm (removeRecArgs p args)
  | .tag nm cs => .tag nm (removeRecList p cs)
  | .heading l cs => .heading l (removeRecList p cs)

def removeRecArgs (p : WikiNode → Bool) :
    List (Option String × List WikiNode) → List (Option String × List WikiNode)
  | [] => []
  | (k, v) :: rest => (k, removeRecList p v) :: removeRecArgs p rest

def removeRecList (p : WikiNode → Bool) : List WikiNode → List WikiNode
  | [] => []
  | n :: rest =>
      if p n then removeRecList p rest
      else removeRecNode p n :: removeRecList p rest

end

/-- Models one removal loop of `_parse_and_clean_wikicode`
(`for obj in section.ifilter_xxx(matches=p, recursive=True):
try_remove_obj(obj, section)`): its net effect removes, at any depth,
every node matching the predicate.  The source iterates the three loops
in this order: wikilinks, then templates, then tags. -/
def cleanSection (s : WikiSection) : WikiSection :=
  removeRecList rm_tag (removeRecList rm_template (removeRecList rm_wikilink s))

mutual

/-- Occurrence test: does the node occur (by structural equality)
strictly inside the given node, at any depth. -/
def occursNode (obj : WikiNode) : WikiNode → Bool
  | .text _ => false
  | .wikilink _ _ => false
  | .template _ args => occursArgs obj args
  | .tag _ cs => occursList obj cs
  | .heading _ cs => occursList obj cs

def occursArgs (obj : WikiNode) : List (Option String × List WikiNode) → Bool
  | [] => false
  | (_, v) :: rest => occursList obj v || occursArgs obj rest

/-- Occurrence test in a node sequence: the node is one of the elements
or occurs inside one of them. -/
def occursList (obj : WikiNode) : List WikiNode → Bool
  | [] => false
  | n :: rest => beqNode n obj || (occursNode obj n || occursList obj rest)

end

mutual

/-- Modelled from the spec: the library removal `section.remove(obj)`
with its default recursive search.  Returns the tree with the first
occurrence of the node removed, or `none` when the node is not found
(the library raises ValueError in that case). -/
def removeFirstNode? (obj : WikiNode) : WikiNode → Option WikiNode
  | .text _ => none
  | .wikilink _ _ => none
  | .template nm args => (removeFirstArgs? obj args).map (fun a => WikiNode.template nm a)
  | .tag nm cs => (removeFirstList? obj cs).map (fun a => WikiNode.tag nm a)
  | .heading l cs => (removeFirstList? obj cs).map (fun a => WikiNode.heading l a)

def removeFirstArgs? (obj : WikiNode) :
    List (Option String × List WikiNode) → Option (List (Option String × List WikiNode))
  | [] => none
  | (k, v) :: rest =>
      match removeFirstList? obj v with
      | some v2 => some ((k, v2) :: rest)
      | none => (removeFirstArgs? obj rest).map (fun r => (k, v) :: r)

def removeFirstList? (obj : WikiNode) : List WikiNode → Option (List WikiNode)
  | [] => none
  | n :: rest =>
      if beqNode n obj then some rest
      else
        match removeFirstNode? obj n with
        | some n2 => some (n2 :: rest)
        | none => (removeFirstList? obj rest).map (fun r => n :: r)

end

/-- Translated from `try_remove_obj` in the source: attempt the removal
and swallow the not-found failure (`except ValueError: pass`), leaving
the section unchanged in that case. -/
def try_remove_obj (obj : WikiNode) (sec : WikiSection) : WikiSection :=
  match removeFirstList? obj sec with
  | some s2 => s2
  | none => sec

mutual

/-- Modelled from the spec: `strip_code` flattening of one node —
literal text for text nodes, the display text (or the target when no
display is given) for wikilinks, nothing for templates (the library
excludes templates from stripped output), and the flattened children
for tags and headings. -/
def stripNode : WikiNode → String
  | .text s => s
  | .wikilink t d =>
      match d with
      | some txt => txt
      | none => t
  | .template _ _ => ""
  | .tag _ cs => stripList cs
  | .heading _ cs => stripList cs

/-- Flattening of a node sequence: concatenation in document order. -/
def stripList : List WikiNode → String
  | [] => ""
  | n :: rest => stripNode n ++ stripList rest

end

/-- Per-section text of `_parse_and_clean_wikicode`: clean the section,
flatten it (`strip_code`) and trim surrounding whitespace (`strip`). -/
def sectionText (s : WikiSection) : String :=
  pyStrip (stripList (cleanSection s))

/-- Final joining step of `_parse_and_clean_wikicode`: the per-section
texts joined with a blank-line separator. -/
def clean_sections (secs : List WikiSection) : String :=
  String.intercalate "\n\n" (secs.map sectionText)

/-- Helper for the parser: split a character sequence at the first
occurrence of a delimiter sequence, returning the parts before and
after it, or `none` when the delimiter does not occur. -/
def splitAtSub? (delim : List Char) : List Char → Option (List Char × List Char)
  | [] => none
  | c :: rest =>
      if delim.isPrefixOf (c :: rest) then some ([], (c :: rest).drop delim.length)
      else
        match splitAtSub? delim rest with
        | some (pre, post) => some (c :: pre, post)
        | none => none

/-- Helper for the parser: find the closing double brace of a template,
tracking the nesting depth of inner double braces, and return the
content before it and the remainder after it. -/
def findTemplateEnd (depth : Nat) : List Char → Option (List Char × List Char)
  | [] => none
  | '{' :: '{' :: rest =>
      match findTemplateEnd (depth + 1) rest with
      | some (a, b) => some ('{' :: '{' :: a, b)
      | none => none
  | '}' :: '}' :: rest =>
      if depth = 0 then some ([], rest)
      else
        match findTemplateEnd (depth - 1) rest with
        | some (a, b) => some ('}' :: '}' :: a, b)
        | none => none
  | c :: rest =>
      match findTemplateEnd depth rest with
      | some (a, b) => some (c :: a, b)
      | none => none

/-- Helper for the parser: split a character sequence on every
occurrence of a delimiter character. -/
def splitAllOn (delim : Char) : List Char → List (List Char)
  | [] => [[]]
  | c :: rest =>
      if c = delim then [] :: splitAllOn delim rest
      else
        match splitAllOn delim rest with
        | [] => [[c]]
        | part :: parts => (c :: part) :: parts

/-- Pending literal characters, accumulated in reverse, flushed into a
single text node when a structured construct begins or input ends. -/
def flushText (acc : List Char) : List WikiNode :=
  if acc.isEmpty then [] else [WikiNode.text (String.mk acc.reverse)]

/-- Modelled from the spec: the recognition pass of the wikitext parser
(spec section 4.2).  Left to right it recognizes wikilinks
(double-bracket constructs split at the first pipe into target and
display), templates (double-brace constructs, name before the first
pipe, then arguments, each split at the first equals sign into key and
value), tags (an alphabetic name after an opening angle bracket, either
self-closing or owning the content up to its matching closing tag), and
headings (lines starting and ending with equal-sign runs, the level
being the smaller run length capped at six); any unmatched opening
construct is kept as plain text.  The fuel argument bounds recursion and
never runs out when it starts at one past the input length. -/
def parseWT : Nat → Bool → List Char → List Char → List WikiNode
  | 0, _, acc, _ => flushText acc
  | _ + 1, _, acc, [] => flushText acc
  | fuel + 1, atStart, acc, c :: rest =>
      match c, rest with
      | '[', '[' :: rest2 =>
          (match splitAtSub? [']', ']'] rest2 with
           | some (inner, rest3) =>
               let td :=
                 match splitAtSub? ['|'] inner with
                 | some (t, d) => (String.mk t, some (String.mk d))
                 | none => (String.mk inner, none)
               flushText acc ++
                 (WikiNode.wikilink td.1 td.2 :: parseWT fuel false [] rest3)
           | none => parseWT fuel false (c :: acc) rest)
      | '{', '{' :: rest2 =>
          (match findTemplateEnd 0 rest2 with
           | some (inner, rest3) =>
               let parts := splitAllOn '|' inner
               let nm := String.mk (parts.headD [])
               let args := parts.tail.map (fun a =>
                 match splitAtSub? ['='] a with
                 | some (k, v) => (some (String.mk k), parseWT fuel false [] v)
                 | none => ((none : Option String), parseWT fuel false [] a))
               flushText acc ++
                 (WikiNode.template nm args :: parseWT fuel false [] rest3)
           | none => parseWT fuel false (c :: acc) rest)
      | '<', _ =>
          let nmChars := rest.takeWhile (fun ch => ch.isAlpha)
          if nmChars.isEmpty then parseWT fuel false (c :: acc) rest
          else
            let afterName := rest.drop nmChars.length
            match splitAtSub? ['>'] afterName with
            | some (attrs, afterGt) =>
                if attrs.getLast? = some '/' then
                  flushText acc ++
                    (WikiNode.tag (String.mk nmChars) [] :: parseWT fuel false [] afterGt)
                else
                  match splitAtSub? ('<' :: '/' :: (nmChars ++ ['>'])) afterGt with
                  | some (inner, afterClose) =>
                      flushText acc ++
                        (WikiNode.tag (String.mk nmChars) (parseWT fuel false [] inner) ::
                          parseWT fuel false [] afterClose)
                  | none => parseWT fuel false (c :: acc) rest
            | none => parseWT fuel false (c :: acc) rest
      | '=', _ =>
          if atStart then
            let line := (c :: rest).takeWhile (fun ch => ch ≠ '\n')
            let rest3 := (c :: rest).drop line.length
            let lead := line.takeWhile (fun ch => ch = '=')
            let trail := line.reverse.takeWhile (fun ch => ch = '=')
            let k := min (min lead.length trail.length) 6
            if 1 ≤ k ∧ 2 * k < line.length then
              let inner := (line.drop k).take (line.length - 2 * k)
              let innerTrim := (pyStrip (String.mk inner)).toList
              flushText acc ++
                (WikiNode.heading k (parseWT fuel false [] innerTrim) ::
                  parseWT fuel false [] rest3)
            else parseWT fuel (c = '\n') (c :: acc) rest
          else parseWT fuel (c = '\n') (c :: acc) rest
      | _, _ => parseWT fuel (c = '\n') (c :: acc) rest

/-- Modelled from the spec: parse a raw markup string into the node
sequence of the whole page. -/
def parseWikicodeNodes (raw : String) : List WikiNode :=
  parseWT (raw.toList.length + 1) true [] raw.toList

/-- Section splitting: accumulate the current section (reversed) and
start a new section at every heading node. -/
def splitSectionsGo (cur : List WikiNode) : List WikiNode → List WikiSection
  | [] => [cur.reverse]
  | n :: rest =>
      match n with
      | .heading _ _ => cur.reverse :: splitSectionsGo [n] rest
      | _ => splitSectionsGo (n :: cur) rest

/-- Modelled from the spec: `get_sections(flat=True, include_lead=True,
include_headings=True)` — the lead section (possibly empty) followed by
one section per heading, each section owning its heading node and the
content up to the next heading. -/
def get_sections (ns : List WikiNode) : List WikiSection :=
  splitSectionsGo [] ns

/-- Translated from `_parse_and_clean_wikicode` in the source: parse the
raw markup (spec-modelled parser), then clean and flatten every section
and join the results with blank lines. -/
def parse_and_clean_wikicode (raw : String) : String :=
  clean_sections (get_sections (parseWikicodeNodes raw))

/-- One `page` element of the dump XML, as accessed by
`_extract_content`.  Each field is the corresponding child element:
the outer option is element presence (`find` returns nothing when the
child is absent, and the subsequent text access crashes), the inner
option is the text content of the element (possibly null). -/
structure PageElem where
  title : Option (Option String)
  ns : Option (Option String)
  id : Option (Option String)
  revisionText : Option (Option String)
deriving Repr, DecidableEq

/-- Fatal extraction failure: the spec calls the crash on a missing
required child a MalformedDumpError; in the source it surfaces as the
uncaught attribute error of reading `.text` on a missing `find`
result. -/
inductive MalformedDumpError where
  | missingRequiredChild
  | missingRevisionText
deriving Repr, DecidableEq

/-- Outcome of `_extract_content` for one page element. -/
inductive PageResult where
  | skippedNs
  | filteredRedirect
  | extracted (id : Option String) (title : Option String) (raw : String)
deriving Repr, DecidableEq

/-- Translated from the per-page body of `_extract_content`: read the
title, ns and id child texts (fatal when a child is absent), silently
skip pages whose ns text differs from "0", then read the revision text
(fatal when the element is absent) and filter pages whose text is null
or starts, lower-cased, with the redirect marker; the remaining pages
are extracted. -/
def extract_page (p : PageElem) : Except MalformedDumpError PageResult :=
  match p.title, p.ns, p.id with
  | some title, some ns, some id_ =>
      if ns ≠ some "0" then Except.ok PageResult.skippedNs
      else
        match p.revisionText with
        | none => Except.error MalformedDumpError.missingRevisionText
        | some raw_content =>
            match raw_content with
            | none => Except.ok PageResult.filteredRedirect
            | some s =>
                if pyStartsWith (pyLower s) "#redirect" then
                  Except.ok PageResult.filteredRedirect
                else Except.ok (PageResult.extracted id_ title s)
  | _, _, _ => Except.error MalformedDumpError.missingRequiredChild

/-- One element of the XML event stream: a page element or any other
element (skipped by `_extract_content`). -/
inductive XElem where
  | page (p : PageElem)
  | other
deriving Repr, DecidableEq

/-- The observable state of one extraction stream: the yielded raw-page
tuples (id, title, raw text) in order, and the two beam counters
incremented by `_extract_content`. -/
structure ExtractState where
  yields : List (Option String × Option String × String)
  filtered_redirects : Nat
  extracted_examples : Nat
deriving Repr, DecidableEq

/-- Translated from the loop of `_extract_content` over one stream:
pages are processed in order; a fatal page aborts the stream (the pages
after it are never reached and it increments no counter), a skipped or
filtered page contributes its counter, an extracted page contributes
its counter and its yielded tuple. -/
def extract_content : List XElem → ExtractState × Option MalformedDumpError
  | [] => (⟨[], 0, 0⟩, none)
  | XElem.other :: rest => extract_content rest
  | XElem.page p :: rest =>
      match extract_page p with
      | Except.error e => (⟨[], 0, 0⟩, some e)
      | Except.ok PageResult.skippedNs => extract_content rest
      | Except.ok PageResult.filteredRedirect =>
          let r := extract_content rest
          ({ r.1 with filtered_redirects := r.1.filtered_redirects + 1 }, r.2)
      | Except.ok (PageResult.extracted i t s) =>
          let r := extract_content rest
          ({ r.1 with yields := (i, t, s) :: r.1.yields,
                      extracted_examples := r.1.extracted_examples + 1 }, r.2)

/-- The single failure the wikitext parser can signal for one page
(`mwparserfromhell.parser.ParserError`). -/
inductive WikitextParseError where
  | parserError
deriving Repr, DecidableEq

/-- The observable state of the cleaning stage: the yielded records
(id, title, text) in order and the three beam counters incremented by
`_clean_content`. -/
structure CleanState where
  records : List (Option String × Option String × String)
  parser_error : Nat
  empty_clean_examples : Nat
  cleaned_examples : Nat
deriving Repr, DecidableEq

/-- Composition of an abstract parse step (the external library call,
which may fail) with the cleaning and flattening of
`_parse_and_clean_wikicode`; a parse failure propagates. -/
def parse_and_clean_abs
    (parse : String → Except WikitextParseError (List WikiSection)) (raw : String) :
    Except WikitextParseError String :=
  (parse raw).map clean_sections

/-- Translated from `_clean_content`: on parse failure increment
parser-error and yield nothing; on empty cleaned text increment
empty-clean-examples and yield nothing; otherwise increment
cleaned-examples and yield the record. -/
def clean_content (parse : String → Except WikitextParseError (List WikiSection))
    (inputs : Option String × Option String × String) : CleanState :=
  match parse_and_clean_abs parse inputs.2.2 with
  | Except.error _ => ⟨[], 1, 0, 0⟩
  | Except.ok text =>
      if text = "" then ⟨[], 0, 1, 0⟩
      else ⟨[(inputs.1, inputs.2.1, text)], 0, 0, 1⟩

/-- Pointwise combination of cleaning outcomes: records concatenate in
order, counters add. -/
def addCleanState (a b : CleanState) : CleanState :=
  ⟨a.records ++ b.records, a.parser_error + b.parser_error,
    a.empty_clean_examples + b.empty_clean_examples,
    a.cleaned_examples + b.cleaned_examples⟩

/-- The cleaning stage over a whole sequence of extracted tuples: each
tuple is processed independently (a per-page parser failure never stops
the run). -/
def clean_stream (parse : String → Except WikitextParseError (List WikiSection)) :
    List (Option String × Option String × String) → CleanState
  | [] => ⟨[], 0, 0, 0⟩
  | t :: rest => addCleanState (clean_content parse t) (clean_stream parse rest)

/-- The fixed shard byte budget of `_split_generators`: 128 MiB. -/
def bytes_per_shard : Nat := 128 * 2 ^ 20

/-- Translated from `_split_generators`:
`int(ceil(total_bytes / (128 * 2**20)))`, the ceiling written in
natural-number arithmetic. -/
def num_shards (total_bytes : Nat) : Nat :=
  (total_bytes + bytes_per_shard - 1) / bytes_per_shard

/-- The Python substring containment test (`needle in hay`). -/
def containsSub (needle : List Char) : List Char → Bool
  | [] => needle.isEmpty
  | c :: rest => needle.isPrefixOf (c :: rest) || containsSub needle rest

/-- Translated from `_split_generators`: the total byte size summed over
the dump files whose name contains ".xml". -/
def total_xml_bytes (files : List (String × Nat)) : Nat :=
  (((files.filter (fun f => containsSub ".xml".toList f.1.toList)).map
    (fun f => f.2)).sum)

/-- The shard count passed as `num_shards` to the split generator,
computed internally from the manifest file sizes. -/
def split_num_shards (files : List (String × Nat)) : Nat :=
  num_shards (total_xml_bytes files)

/-- The keyword parameters accepted by the `WikipediaML` constructor in
the source. -/
def wikipediaml_init_params : List String :=
  ["language", "date", "data_dir", "split", "as_supervised", "batch_size",
    "shuffle_files", "verbose"]

/-- The keyword parameters accepted by `WikipediaML.load` in the
source. -/
def wikipediaml_load_params : List String :=
  ["download", "download_mode"]

/-- The single removal condition named by the specification: a wikilink
whose target case-insensitively starts with File:, Image: or Media:, a
template whose lower-cased name is in the reference-list set, or a tag
named ref or table. -/
def specShouldRemove : WikiNode → Bool
  | .wikilink target _ =>
      pyStartsWith (pyLower target) "file:" ||
        (pyStartsWith (pyLower target) "image:" || pyStartsWith (pyLower target) "media:")
  | .template nm _ =>
      pyLower nm == "reflist" ||
        (pyLower nm == "notelist" ||
          (pyLower nm == "notelist-ua" ||
            (pyLower nm == "notelist-lr" ||
              (pyLower nm == "notelist-ur" || pyLower nm == "notelist-lg"))))
  | .tag nm _ => nm == "ref" || nm == "table"
  | _ => false

/-- A main-namespace page element of the stream (ns child present with
text "0"). -/
def isMainNsPage : XElem → Bool
  | XElem.page p => p.ns == some (some "0")
  | XElem.other => false

/-- The number of main-namespace pages in an input stream. -/
def countMainNs (xs : List XElem) : Nat :=
  (xs.filter isMainNsPage).length

theorem rm_template_stable (q : WikiNode → Bool) (n : WikiNode) :
    rm_template (removeRecNode q n) = rm_template n := by
  cases n <;> rfl

theorem rm_tag_stable (q : WikiNode → Bool) (n : WikiNode) :
    rm_tag (removeRecNode q n) = rm_tag n := by
  cases n <;> rfl

mutual

theorem removeRec_fusion_node (p q : WikiNode → Bool)
    (hp : ∀ n, p (removeRecNode q n) = p n) (n : WikiNode) :
    removeRecNode p (removeRecNode q n) = removeRecNode (fun m => q m || p m) n := by
  cases n with
  | text s => rfl
  | wikilink t d => rfl
  | template nm args =>
      simp [removeRecNode, removeRec_fusion_args p q hp args]
  | tag nm cs =>
      simp [removeRecNode, removeRec_fusion_list p q hp cs]
  | heading l cs =>
      simp [removeRecNode, removeRec_fusion_list p q hp cs]

theorem removeRec_fusion_args (p q : WikiNode → Bool)
    (hp : ∀ n, p (removeRecNode q n) = p n) (args : List (Option String × List WikiNode)) :
    removeRecArgs p (removeRecArgs q args) = removeRecArgs (fun m => q m || p m) args := by
  cases args with
  | nil => rfl
  | cons a rest =>
      cases a with
      | mk k v =>
          simp [removeRecArgs, removeRec_fusion_list p q hp v,
                removeRec_fusion_args p q hp rest]

theorem removeRec_fusion_list (p q : WikiNode → Bool)
    (hp : ∀ n, p (removeRecNode q n) = p n) (ns : List WikiNode) :
    removeRecList p (removeRecList q ns) = removeRecList (fun m => q m || p m) ns := by
  cases ns with
  | nil => rfl
  | cons n rest =>
      by_cases hq : q n
      · simp [removeRecList, hq, removeRec_fusion_list p q hp rest]
      · by_cases hpn : p n
        · simp [removeRecList, hq, hp n, hpn, removeRec_fusion_list p q hp rest]
        · simp [removeRecList, hq, hp n, hpn, removeRec_fusion_node p q hp n,
                removeRec_fusion_list p q hp rest]

end

theorem fused_pred_eq_spec :
    (fun m => (rm_wikilink m || rm_template m) || rm_tag m) = specShouldRemove := by
  funext n
  cases n <;> simp [rm_wikilink, rm_template, rm_tag, specShouldRemove]

/-- Claim C1: for every parsed section, the cleaner removes, recursively
at any depth, exactly the nodes satisfying the stated removal condition
(file/image/media wikilinks, reference-list templates, ref/table tags)
and no other nodes: the three sequential removal passes of
`_parse_and_clean_wikicode` coincide with one recursive filter by the
single condition. -/
theorem claim_C1 (s : WikiSection) :
    cleanSection s = removeRecList specShouldRemove s := by
  unfold cleanSection
  rw [removeRec_fusion_list rm_template rm_wikilink
    (fun n => rm_template_stable rm_wikilink n) s]
  rw [removeRec_fusion_list rm_tag (fun m => rm_wikilink m || rm_template m)
    (fun n => rm_tag_stable _ n) s]
  rw [fused_pred_eq_spec]

mutual

theorem notOccurs_removeFirstNode (obj : WikiNode) (n : WikiNode)
    (h : occursNode obj n = false) : removeFirstNode? obj n = none := by
  cases n with
  | text s => rfl
  | wikilink t d => rfl
  | template nm args =>
      simp only [occursNode] at h
      simp [removeFirstNode?, notOccurs_removeFirstArgs obj args h]
  | tag nm cs =>
      simp only [occursNode] at h
      simp [removeFirstNode?, notOccurs_removeFirstList obj cs h]
  | heading l cs =>
      simp only [occursNode] at h
      simp [removeFirstNode?, notOccurs_removeFirstList obj cs h]

theorem notOccurs_removeFirstArgs (obj : WikiNode)
    (args : List (Option String × List WikiNode))
    (h : occursArgs obj args = false) : removeFirstArgs? obj args = none := by
  cases args with
  | nil => rfl
  | cons a rest =>
      cases a with
      | mk k v =>
          simp only [occursArgs, Bool.or_eq_false_iff] at h
          simp [removeFirstArgs?, notOccurs_removeFirstList obj v h.1,
                notOccurs_removeFirstArgs obj rest h.2]

theorem notOccurs_removeFirstList (obj : WikiNode) (s : List WikiNode)
    (h : occursList obj s = false) : removeFirstList? obj s = none := by
  cases s with
  | nil => rfl
  | cons n rest =>
      simp only [occursList, Bool.or_eq_false_iff] at h
      simp [removeFirstList?, h.1, notOccurs_removeFirstNode obj n h.2.1,
            notOccurs_removeFirstList obj rest h.2.2]

end

/-- Claim C8: removing a node that is absent from the section (it is not
one of the nodes of the section at any depth) is a no-op — the
try-remove operation of the source does not fail and returns the section
unchanged, sibling order included. -/
theorem claim_C8 (obj : WikiNode) (sec : WikiSection)
    (h : occursList obj sec = false) : try_remove_obj obj sec = sec := by
  unfold try_remove_obj
  rw [notOccurs_removeFirstList obj sec h]

/-- Witness for claim C8 at a concrete input: a text node absent from a
one-node section. -/
theorem claim_C8_witness :
    occursList (WikiNode.text "x") [WikiNode.text "y"] = false ∧
      try_remove_obj (WikiNode.text "x") [WikiNode.text "y"] = [WikiNode.text "y"] :=
  ⟨by decide, claim_C8 (WikiNode.text "x") [WikiNode.text "y"] (by decide)⟩

/-- Claim C7: the parse-and-clean function maps the markup
"[[File:Cat.jpg|thumb]] A cat. <ref>source</ref>" to exactly "A cat.":
the file wikilink and the ref tag are removed, the prose between them is
kept and the surrounding whitespace is trimmed. -/
theorem claim_C7 :
    parse_and_clean_wikicode "[[File:Cat.jpg|thumb]] A cat. <ref>source</ref>" = "A cat." := by
  decide

/-- Claim C2: a main-namespace page whose revision text is null or
starts, case-insensitively, with the redirect marker is counted in
filtered-redirects (exactly once) and never yielded; the rest of the
stream is unaffected. -/
theorem claim_C2 (t i rt : Option String) (rest : List XElem)
    (h : rt = none ∨ ∃ s, rt = some s ∧ pyStartsWith (pyLower s) "#redirect" = true) :
    extract_page ⟨some t, some (some "0"), some i, some rt⟩ =
      Except.ok PageResult.filteredRedirect ∧
    (extract_content (XElem.page ⟨some t, some (some "0"), some i, some rt⟩ :: rest)).1.filtered_redirects
      = (extract_content rest).1.filtered_redirects + 1 ∧
    (extract_content (XElem.page ⟨some t, some (some "0"), some i, some rt⟩ :: rest)).1.yields
      = (extract_content rest).1.yields ∧
    (extract_content (XElem.page ⟨some t, some (some "0"), some i, some rt⟩ :: rest)).1.extracted_examples
      = (extract_content rest).1.extracted_examples := by
  have hpage : extract_page ⟨some t, some (some "0"), some i, some rt⟩ =
      Except.ok PageResult.filteredRedirect := by
    rcases h with h | ⟨s, hs, hred⟩
    · subst h
      simp [extract_page]
    · subst hs
      simp [extract_page, hred]
  refine ⟨hpage, ?_, ?_, ?_⟩ <;> simp [extract_content, hpage]

/-- Witness for claim C2 at the concrete scenario of the spec: a page
whose revision text is exactly "#REDIRECT [[Other Page]]". -/
theorem claim_C2_witness :
    extract_page ⟨some (some "T"), some (some "0"), some (some "1"),
        some (some "#REDIRECT [[Other Page]]")⟩ =
      Except.ok PageResult.filteredRedirect ∧
    (extract_content [XElem.page ⟨some (some "T"), some (some "0"), some (some "1"),
        some (some "#REDIRECT [[Other Page]]")⟩]).1.filtered_redirects
      = (extract_content []).1.filtered_redirects + 1 ∧
    (extract_content [XElem.page ⟨some (some "T"), some (some "0"), some (some "1"),
        some (some "#REDIRECT [[Other Page]]")⟩]).1.yields
      = (extract_content []).1.yields ∧
    (extract_content [XElem.page ⟨some (some "T"), some (some "0"), some (some "1"),
        some (some "#REDIRECT [[Other Page]]")⟩]).1.extracted_examples
      = (extract_content []).1.extracted_examples :=
  claim_C2 (some "T") (some "1") (some "#REDIRECT [[Other Page]]") []
    (Or.inr ⟨"#REDIRECT [[Other Page]]", rfl, by decide⟩)

/-- Claim C3: a page element whose ns child text differs from "0" is
discarded silently — the extractor outcome is the silent skip, and the
whole stream behaves as if the page were absent (no counter changes, no
yield).  The statement quantifies over an arbitrary revision-text field,
including redirect-shaped text, which shows the namespace check is
applied before the redirect check. -/
theorem claim_C3 (t i : Option String) (nsv : Option String)
    (rtx : Option (Option String)) (rest : List XElem)
    (h : nsv ≠ some "0") :
    extract_page ⟨some t, some nsv, some i, rtx⟩ = Except.ok PageResult.skippedNs ∧
    extract_content (XElem.page ⟨some t, some nsv, some i, rtx⟩ :: rest) =
      extract_content rest := by
  have hpage : extract_page ⟨some t, some nsv, some i, rtx⟩ =
      Except.ok PageResult.skippedNs := by
    simp [extract_page, h]
  exact ⟨hpage, by simp [extract_content, hpage]⟩

/-- Witness for claim C3 at a concrete input: a talk-namespace page
whose text even looks like a redirect: it is skipped with no counter
change. -/
theorem claim_C3_witness :
    extract_page ⟨some (some "T"), some (some "1"), some (some "9"),
        some (some "#redirect x")⟩ = Except.ok PageResult.skippedNs ∧
    extract_content [XElem.page ⟨some (some "T"), some (some "1"), some (some "9"),
        some (some "#redirect x")⟩] = extract_content [] :=
  claim_C3 (some "T") (some "9") (some "1") (some (some "#redirect x")) [] (by decide)

/-- Claim C10: a page element missing a required child (title, ns or id)
is fatal: extraction of the page fails (it is not silently skipped), no
counter is incremented, and the whole stream aborts at that page — the
pages after it contribute nothing. -/
theorem claim_C10 (p : PageElem) (rest : List XElem)
    (h : p.title = none ∨ p.ns = none ∨ p.id = none) :
    extract_page p = Except.error MalformedDumpError.missingRequiredChild ∧
    extract_content (XElem.page p :: rest) =
      (⟨[], 0, 0⟩, some MalformedDumpError.missingRequiredChild) := by
  obtain ⟨t, ns, i, rtx⟩ := p
  have hpage : extract_page ⟨t, ns, i, rtx⟩ =
      Except.error MalformedDumpError.missingRequiredChild := by
    cases t <;> cases ns <;> cases i <;> simp_all [extract_page]
  exact ⟨hpage, by simp [extract_content, hpage]⟩

/-- Witness for claim C10 at a concrete input: a page with no id
child. -/
theorem claim_C10_witness :
    extract_page ⟨some (some "T"), some (some "0"), none, some (some "body")⟩ =
      Except.error MalformedDumpError.missingRequiredChild ∧
    extract_content [XElem.page ⟨some (some "T"), some (some "0"), none, some (some "body")⟩,
        XElem.page ⟨some (some "U"), some (some "0"), some (some "2"), some (some "body2")⟩] =
      (⟨[], 0, 0⟩, some MalformedDumpError.missingRequiredChild) :=
  claim_C10 ⟨some (some "T"), some (some "0"), none, some (some "body")⟩
    [XElem.page ⟨some (some "U"), some (some "0"), some (some "2"), some (some "body2")⟩]
    (Or.inr (Or.inr rfl))

/-- Claim C4: for a page that parses successfully, an empty flattened
text increments empty-clean-examples (exactly once) and yields no
record, and a non-empty flattened text increments cleaned-examples
(exactly once) and yields the record with that text. -/
theorem claim_C4 (parse : String → Except WikitextParseError (List WikiSection))
    (i t : Option String) (raw text : String)
    (h : parse_and_clean_abs parse raw = Except.ok text) :
    (text = "" → clean_content parse (i, t, raw) = ⟨[], 0, 1, 0⟩) ∧
    (text ≠ "" → clean_content parse (i, t, raw) = ⟨[(i, t, text)], 0, 0, 1⟩) := by
  constructor <;> intro h2 <;> simp [clean_content, h, h2]

/-- Witness for claim C4 at a concrete input: a one-text-node parse of
the raw string "A" yields the cleaned record with text "A". -/
theorem claim_C4_witness :
    parse_and_clean_abs (fun s => Except.ok [[WikiNode.text s]]) "A" = Except.ok "A" ∧
    clean_content (fun s => Except.ok [[WikiNode.text s]]) (some "1", some "T", "A") =
      ⟨[(some "1", some "T", "A")], 0, 0, 1⟩ :=
  ⟨rfl, (claim_C4 (fun s => Except.ok [[WikiNode.text s]]) (some "1") (some "T") "A" "A"
    rfl).2 (by decide)⟩

/-- Claim C5: when the parser fails on a page, the cleaner never runs
for it: the parser-error counter is incremented exactly once, no record
is yielded for the page, and the remaining pages are processed exactly
as if the failing page were processed alone first — the run is not
aborted. -/
theorem claim_C5 (parse : String → Except WikitextParseError (List WikiSection))
    (i t : Option String) (raw : String)
    (rest : List (Option String × Option String × String))
    (h : ∃ e, parse raw = Except.error e) :
    clean_content parse (i, t, raw) = ⟨[], 1, 0, 0⟩ ∧
    clean_stream parse ((i, t, raw) :: rest) =
      addCleanState ⟨[], 1, 0, 0⟩ (clean_stream parse rest) := by
  obtain ⟨e, he⟩ := h
  have h1 : parse_and_clean_abs parse raw = Except.error e := by
    simp [parse_and_clean_abs, he, Except.map]
  have h2 : clean_content parse (i, t, raw) = ⟨[], 1, 0, 0⟩ := by
    simp [clean_content, h1]
  exact ⟨h2, by simp [clean_stream, h2]⟩

/-- Witness for claim C5 at a concrete input: an always-failing parser
on a two-page stream: the first page is dropped with parser-error 1 and
the second is still processed. -/
theorem claim_C5_witness :
    clean_content (fun _ => Except.error WikitextParseError.parserError)
      (some "1", some "T", "x") = ⟨[], 1, 0, 0⟩ ∧
    clean_stream (fun _ => Except.error WikitextParseError.parserError)
      [(some "1", some "T", "x"), (some "2", some "U", "y")] =
      addCleanState ⟨[], 1, 0, 0⟩
        (clean_stream (fun _ => Except.error WikitextParseError.parserError)
          [(some "2", some "U", "y")]) :=
  claim_C5 (fun _ => Except.error WikitextParseError.parserError) (some "1") (some "T") "x"
    [(some "2", some "U", "y")] ⟨WikitextParseError.parserError, rfl⟩

theorem countMainNs_cons (x : XElem) (xs : List XElem) :
    countMainNs (x :: xs) = (if isMainNsPage x then 1 else 0) + countMainNs xs := by
  simp only [countMainNs, List.filter_cons]
  split <;> simp [Nat.add_comm]

theorem skippedNs_not_main (p : PageElem)
    (h : extract_page p = Except.ok PageResult.skippedNs) :
    isMainNsPage (XElem.page p) = false := by
  obtain ⟨t, ns, i, rtx⟩ := p
  cases t <;> cases ns <;> cases i <;> simp_all [extract_page, isMainNsPage]
  next nsv _ =>
    intro hns
    subst hns
    simp at h
    rcases rtx with _ | rc
    · simp at h
    · rcases rc with _ | s
      · simp at h
      · by_cases hred : pyStartsWith (pyLower s) "#redirect" = true <;> simp [hred] at h

theorem filteredRedirect_main (p : PageElem)
    (h : extract_page p = Except.ok PageResult.filteredRedirect) :
    isMainNsPage (XElem.page p) = true := by
  obtain ⟨t, ns, i, rtx⟩ := p
  cases t <;> cases ns <;> cases i <;> simp_all [extract_page, isMainNsPage]
  next nsv _ =>
    by_cases hns : nsv = some "0"
    · exact hns
    · simp [hns] at h

theorem extracted_main (p : PageElem) (i2 t2 : Option String) (s2 : String)
    (h : extract_page p = Except.ok (PageResult.extracted i2 t2 s2)) :
    isMainNsPage (XElem.page p) = true := by
  obtain ⟨t, ns, i, rtx⟩ := p
  cases t <;> cases ns <;> cases i <;> simp_all [extract_page, isMainNsPage]
  next nsv _ =>
    by_cases hns : nsv = some "0"
    · exact hns
    · simp [hns] at h

theorem extract_content_invariant (xs : List XElem)
    (h : (extract_content xs).2 = none) :
    (extract_content xs).1.extracted_examples + (extract_content xs).1.filtered_redirects
        = countMainNs xs ∧
      (extract_content xs).1.yields.length = (extract_content xs).1.extracted_examples := by
  induction xs with
  | nil => simp [extract_content, countMainNs]
  | cons x rest ih =>
      cases x with
      | other =>
          rw [countMainNs_cons]
          simp only [extract_content] at h ⊢
          simpa [isMainNsPage] using ih h
      | page p =>
          rw [countMainNs_cons]
          cases hext : extract_page p with
          | error e => simp [extract_content, hext] at h
          | ok res =>
              cases res with
              | skippedNs =>
                  simp only [extract_content, hext] at h ⊢
                  simpa [skippedNs_not_main p hext] using ih h
              | filteredRedirect =>
                  simp only [extract_content, hext] at h ⊢
                  have := ih h
                  simp [filteredRedirect_main p hext]
                  omega
              | extracted i2 t2 s2 =>
                  simp only [extract_content, hext] at h ⊢
                  have := ih h
                  simp [extracted_main p i2 t2 s2 hext]
                  omega

theorem clean_content_one (parse : String → Except WikitextParseError (List WikiSection))
    (tup : Option String × Option String × String) :
    (clean_content parse tup).parser_error + (clean_content parse tup).empty_clean_examples
      + (clean_content parse tup).cleaned_examples = 1 := by
  cases h : parse_and_clean_abs parse tup.2.2 with
  | error e => simp [clean_content, h]
  | ok text =>
      by_cases h2 : text = "" <;> simp [clean_content, h, h2]

theorem clean_stream_total (parse : String → Except WikitextParseError (List WikiSection))
    (ys : List (Option String × Option String × String)) :
    (clean_stream parse ys).parser_error + (clean_stream parse ys).empty_clean_examples
      + (clean_stream parse ys).cleaned_examples = ys.length := by
  induction ys with
  | nil => rfl
  | cons t rest ih =>
      have h1 := clean_content_one parse t
      simp only [clean_stream, addCleanState, List.length_cons]
      omega

/-- Claim C6: across a completed run, every main-namespace page
increments exactly one of filtered-redirects and extracted-examples, so
their sum equals the number of main-namespace pages of the input; and
every extracted page increments exactly one of parser-error,
empty-clean-examples and cleaned-examples, so extracted-examples equals
the sum of those three counters after cleaning. -/
theorem claim_C6 (xs : List XElem)
    (parse : String → Except WikitextParseError (List WikiSection))
    (s : ExtractState) (h : extract_content xs = (s, none)) :
    s.extracted_examples + s.filtered_redirects = countMainNs xs ∧
    (clean_stream parse s.yields).parser_error
      + (clean_stream parse s.yields).empty_clean_examples
      + (clean_stream parse s.yields).cleaned_examples = s.extracted_examples := by
  have h2 : (extract_content xs).2 = none := by rw [h]
  have h1 := extract_content_invariant xs h2
  rw [h] at h1
  simp only at h1
  exact ⟨h1.1, by rw [clean_stream_total, h1.2]⟩

/-- Witness for claim C6 on a concrete four-element stream (an extracted
page, a non-page element, a talk-namespace page and a null-text
redirect), cleaned with an always-failing parser. -/
theorem claim_C6_witness :
    (ExtractState.mk [(some "1", some "T", "Hello")] 1 1).extracted_examples
        + (ExtractState.mk [(some "1", some "T", "Hello")] 1 1).filtered_redirects
      = countMainNs
          [XElem.page ⟨some (some "T"), some (some "0"), some (some "1"), some (some "Hello")⟩,
            XElem.other,
            XElem.page ⟨some (some "U"), some (some "2"), some (some "3"), none⟩,
            XElem.page ⟨some (some "V"), some (some "0"), some (some "4"), some none⟩] ∧
    (clean_stream (fun _ => Except.error WikitextParseError.parserError)
        (ExtractState.mk [(some "1", some "T", "Hello")] 1 1).yields).parser_error
      + (clean_stream (fun _ => Except.error WikitextParseError.parserError)
          (ExtractState.mk [(some "1", some "T", "Hello")] 1 1).yields).empty_clean_examples
      + (clean_stream (fun _ => Except.error WikitextParseError.parserError)
          (ExtractState.mk [(some "1", some "T", "Hello")] 1 1).yields).cleaned_examples
      = (ExtractState.mk [(some "1", some "T", "Hello")] 1 1).extracted_examples :=
  claim_C6
    [XElem.page ⟨some (some "T"), some (some "0"), some (some "1"), some (some "Hello")⟩,
      XElem.other,
      XElem.page ⟨some (some "U"), some (some "2"), some (some "3"), none⟩,
      XElem.page ⟨some (some "V"), some (some "0"), some (some "4"), some none⟩]
    (fun _ => Except.error WikitextParseError.parserError)
    (ExtractState.mk [(some "1", some "T", "Hello")] 1 1) (by decide)

/-- Counterexample for claim C9: the orchestrator exposes no
shard-sizing parameter.  Neither the constructor of the user-facing
class nor its load method accepts a max-shard-bytes or shard-count
keyword, while the shard count is computed by the internal function
(shown at a concrete total of one byte above the 128 MiB budget, giving
two shards). -/
theorem claim_C9_counterexample :
    ("max_shard_bytes" ∉ wikipediaml_init_params ++ wikipediaml_load_params) ∧
    ("num_shards" ∉ wikipediaml_init_params ++ wikipediaml_load_params) ∧
    num_shards (128 * 2 ^ 20 + 1) = 2 := by
  refine ⟨by decide, by decide, by decide⟩

/-- Claim C9 as amended: shard sizing is not a caller-supplied
parameter; `_split_generators` computes the shard count internally as
the ceiling of the total byte size of the manifest files containing
".xml" divided by the fixed 128 MiB budget (the count is the least one
whose total capacity covers the input bytes). -/
theorem claim_C9 :
    ("max_shard_bytes" ∉ wikipediaml_init_params ++ wikipediaml_load_params) ∧
    ("num_shards" ∉ wikipediaml_init_params ++ wikipediaml_load_params) ∧
    ∀ files : List (String × Nat),
      total_xml_bytes files ≤ split_num_shards files * bytes_per_shard ∧
        split_num_shards files * bytes_per_shard < total_xml_bytes files + bytes_per_shard := by
  refine ⟨by decide, by decide, ?_⟩
  intro files
  have h := Nat.div_add_mod (total_xml_bytes files + bytes_per_shard - 1) bytes_per_shard
  have h2 : (total_xml_bytes files + bytes_per_shard - 1) % bytes_per_shard < bytes_per_shard :=
    Nat.mod_lt _ (by decide)
  simp only [split_num_shards, num_shards, bytes_per_shard] at h h2 ⊢
  omega
